import Mathlib

/-!
Verification of the store-and-forward retry engine, the stored-object
contract, the secret provider and the processing context of the
app-functions SDK.

Conventions of the embedding:
* Go byte slices are "List Nat", Go maps are association lists with
  string keys, Go "int" is "Int" where negative values matter.
* Fallible Go functions returning "(T, error)" or "error" become
  "Except String T" or "Except String Unit"; error messages follow the
  source text (apostrophes dropped).
* External collaborators (the google/uuid library, the secret client,
  the Core Data event client) are modelled by explicit parameters or
  small faithful models, as noted on each definition.
-/

set_option maxRecDepth 4096

/-! ## Association-list model of Go maps -/

/-- Lookup in an association list; models a Go map read "m[k]". -/
def assocFind {β : Type} (l : List (String × β)) (k : String) : Option β :=
  match l with
  | [] => none
  | (k1, v) :: rest => if k1 = k then some v else assocFind rest k

/-- Insert-or-overwrite in an association list; models a Go map write "m[k] = v". -/
def assocPut {β : Type} (l : List (String × β)) (k : String) (v : β) : List (String × β) :=
  match l with
  | [] => [(k, v)]
  | (k1, v1) :: rest => if k1 = k then (k, v) :: rest else (k1, v1) :: assocPut rest k v

/-- Delete a key from an association list; models the Go builtin "delete(m, k)". -/
def assocDel {β : Type} (l : List (String × β)) (k : String) : List (String × β) :=
  l.filter (fun kv => kv.1 ≠ k)

/-! ## Model of the external google/uuid library

The store contract calls uuid.Parse and uuid.New from the external
google/uuid package. Parse accepts four input shapes: the canonical
36-character form, the 45-character urn:uuid: form, the 38-character
braced form (whose surrounding characters Parse does not actually
inspect), and the raw 32-character hex form. -/

/-- True for an ASCII hexadecimal digit, as accepted by xtob in google/uuid. -/
def isHexDigitChar (c : Char) : Bool :=
  (decide ('0' ≤ c) && decide (c ≤ '9')) ||
  (decide ('a' ≤ c) && decide (c ≤ 'f')) ||
  (decide ('A' ≤ c) && decide (c ≤ 'F'))

/-- Numeric value of a hexadecimal digit character. -/
def hexVal (c : Char) : Nat :=
  if '0' ≤ c ∧ c ≤ '9' then c.toNat - '0'.toNat
  else if 'a' ≤ c ∧ c ≤ 'f' then c.toNat - 'a'.toNat + 10
  else c.toNat - 'A'.toNat + 10

/-- Model of xtob from google/uuid: converts two hex characters to one byte. -/
def xtob (c1 c2 : Char) : Option Nat :=
  if isHexDigitChar c1 && isHexDigitChar c2 then some (16 * hexVal c1 + hexVal c2)
  else none

/-- Character positions of the 16 hex byte pairs inside a canonical UUID string. -/
def uuidHexPositions : List Nat := [0, 2, 4, 6, 9, 11, 14, 16, 19, 21, 24, 26, 28, 30, 32, 34]

/-- Collect the bytes at the given pair positions of a character list. -/
def collectHexBytes (cs : List Char) : List Nat → Option (List Nat)
  | [] => some []
  | i :: rest =>
    match xtob (cs.getD i 'x') (cs.getD (i + 1) 'x') with
    | none => none
    | some b => (collectHexBytes cs rest).map (fun bs => b :: bs)

/-- Dash positions 8, 13, 18 and 23 of a canonical UUID string. -/
def uuidDashesOK (cs : List Char) : Bool :=
  decide (cs.getD 8 'x' = '-') && decide (cs.getD 13 'x' = '-') &&
  decide (cs.getD 18 'x' = '-') && decide (cs.getD 23 'x' = '-')

/-- Parse the canonical 36-character body of a UUID into its 16 bytes. -/
def uuidParse36 (cs : List Char) : Option (List Nat) :=
  if decide (cs.length = 36) && uuidDashesOK cs then collectHexBytes cs uuidHexPositions
  else none

/-- Parse a raw 32-character hex UUID into its 16 bytes. -/
def uuidParse32 : List Char → Option (List Nat)
  | [] => some []
  | c1 :: c2 :: rest =>
    match xtob c1 c2 with
    | none => none
    | some b => (uuidParse32 rest).map (fun bs => b :: bs)
  | _ => none

/-- Model of uuid.Parse of the external google/uuid library: accepts the
canonical, urn-prefixed, braced and raw-hex shapes and yields the 16 bytes. -/
def uuidParse (s : String) : Option (List Nat) :=
  let cs := s.toList
  if cs.length = 36 then uuidParse36 cs
  else if cs.length = 36 + 9 then
    if (cs.take 9).map Char.toLower = ("urn:uuid:").toList then uuidParse36 (cs.drop 9)
    else none
  else if cs.length = 36 + 2 then uuidParse36 ((cs.drop 1).take 36)
  else if cs.length = 32 then uuidParse32 cs
  else none

/-- Lowercase hex character of a value below 16. -/
def hexChar (n : Nat) : Char :=
  if n < 10 then Char.ofNat ('0'.toNat + n) else Char.ofNat ('a'.toNat + (n - 10))

/-- Two lowercase hex characters of one byte. -/
def byteHex (b : Nat) : List Char := [hexChar (b / 16), hexChar (b % 16)]

/-- Model of UUID.String of the external google/uuid library: canonical
lowercase rendering of 16 bytes. -/
def uuidString (bs : List Nat) : String :=
  match bs with
  | [b0, b1, b2, b3, b4, b5, b6, b7, b8, b9, b10, b11, b12, b13, b14, b15] =>
    String.mk (byteHex b0 ++ byteHex b1 ++ byteHex b2 ++ byteHex b3 ++ ['-'] ++
      byteHex b4 ++ byteHex b5 ++ ['-'] ++ byteHex b6 ++ byteHex b7 ++ ['-'] ++
      byteHex b8 ++ byteHex b9 ++ ['-'] ++ byteHex b10 ++ byteHex b11 ++
      byteHex b12 ++ byteHex b13 ++ byteHex b14 ++ byteHex b15)
  | _ => ""

/-! ## StoredObject (internal/store/contracts) -/

/-- StoredObject is the durable record of one event that failed
mid-pipeline; the nine fields of the Go struct, with Payload as bytes. -/
structure StoredObject where
  ID : String
  AppServiceKey : String
  Payload : List Nat
  RetryCount : Int
  PipelinePosition : Nat
  Version : String
  CorrelationID : String
  EventID : String
  EventChecksum : String
deriving DecidableEq, Repr

/-- NewStoredObject from the contracts package: zero ID, retry count and
correlation metadata. -/
def NewStoredObject (appServiceKey : String) (payload : List Nat)
    (pipelinePosition : Nat) (version : String) : StoredObject :=
  { ID := ""
    AppServiceKey := appServiceKey
    Payload := payload
    RetryCount := 0
    PipelinePosition := pipelinePosition
    Version := version
    CorrelationID := ""
    EventID := ""
    EventChecksum := "" }

/-- True on the error constructor of Except. -/
def exceptIsError {ε α : Type} : Except ε α → Bool
  | .error _ => true
  | .ok _ => false

/-- Tail of StoredObject.ValidateContract after the ID branch: uuid.Parse
of the ID, normalization through UUID.String, then the emptiness checks of
AppServiceKey, Payload and Version, in source order. -/
def validateContractRest (o : StoredObject) : Except String StoredObject :=
  match uuidParse o.ID with
  | none => .error "invalid contract, ID must be UUID"
  | some bs =>
    let o1 := { o with ID := uuidString bs }
    if o1.AppServiceKey = "" then .error "invalid contract, app service key cannot be empty"
    else if o1.Payload = [] then .error "invalid contract, payload cannot be empty"
    else if o1.Version = "" then .error "invalid contract, version cannot be empty"
    else .ok o1

/-- StoredObject.ValidateContract: when IDRequired an empty ID is an
error, otherwise an empty ID is replaced by a freshly generated UUID.
The fresh UUID produced by uuid.New().String() is passed in as the
argument "fresh". -/
def StoredObject.ValidateContract ( IDRequired : Bool) (o : StoredObject)
    (fresh : String) : Except String StoredObject :=
  if IDRequired then
    if o.ID = "" then .error "invalid contract, ID cannot be empty"
    else validateContractRest o
  else
    if o.ID = "" then validateContractRest { o with ID := fresh }
    else validateContractRest o

/-! ## Secret provider (internal/security) -/

/-- Secrets are key-value string pairs; models the Go map[string]string. -/
def SecretsMap := List (String × String)

/-- One entry of Writable.InsecureSecrets: a path and its secrets. -/
structure InsecureSecretsInfo where
  Path : String
  Secrets : List (String × String)

/-- isSecurityEnabled from internal/security/secret.go: security is on
unless the environment variable EDGEX_SECURITY_SECRET_STORE is the literal
"false". The value read by os.Getenv is the argument env; an unset
variable reads as the empty string. -/
def isSecurityEnabled (env : String) : Bool :=
  env ≠ "false"

/-- Result of the loop over Writable.InsecureSecrets inside
getInsecureSecrets: either the early full-path return or the accumulated
secrets, path-exists flag and missing keys. -/
inductive InsecureLoopOut where
  | earlyAll (s : List (String × String))
  | done (secrets : List (String × String)) (pathExists : Bool) (missing : List String)

/-- The range loop of getInsecureSecrets: for each configured entry whose
Path matches, either return all of its secrets at once (no keys requested)
or collect the requested keys, recording the missing ones. -/
def getInsecureSecretsLoop (entries : List InsecureSecretsInfo) (path : String)
    (keys : List String) (secrets : List (String × String)) (pathExists : Bool)
    (missing : List String) : InsecureLoopOut :=
  match entries with
  | [] => .done secrets pathExists missing
  | e :: rest =>
    if e.Path = path then
      if keys = [] then .earlyAll e.Secrets
      else
        let acc := keys.foldl
          (fun (acc : List (String × String) × List String) key =>
            match assocFind e.Secrets key with
            | none => (acc.1, acc.2 ++ [key])
            | some v => (assocPut acc.1 key v, acc.2))
          (secrets, missing)
        getInsecureSecretsLoop rest path keys acc.1 true acc.2
    else getInsecureSecretsLoop rest path keys secrets pathExists missing

/-- getInsecureSecrets from the SecretProvider: reads the requested keys
out of the Writable.InsecureSecrets section of the configuration. -/
def getInsecureSecrets (cfg : List InsecureSecretsInfo) (path : String)
    (keys : List String) : Except String (List (String × String)) :=
  match getInsecureSecretsLoop cfg path keys [] false [] with
  | .earlyAll s => .ok s
  | .done secrets pathExists missing =>
    if missing ≠ [] then
      .error ("No value for the keys: [" ++ String.intercalate "," missing ++ "] exists")
    else if pathExists = false then
      .error ("Error, path (" ++ path ++ ") does not exist in secret store")
    else .ok secrets

/-- The inner key loop of getSecretsCache. The comma-ok form
"value, allKeysExistInCache := cachedSecrets[key]" declares a fresh inner
variable on every iteration; a missing key returns nil at once, so the
loop itself either returns nil or finishes with all keys collected. -/
def getSecretsCacheLoop (cachedSecrets : List (String × String)) (keys : List String)
    (secrets : List (String × String)) : Option (List (String × String)) :=
  match keys with
  | [] => some secrets
  | key :: rest =>
    match assocFind cachedSecrets key with
    | none => none
    | some v => getSecretsCacheLoop cachedSecrets rest (assocPut secrets key v)

/-- getSecretsCache from the SecretProvider. The outer flag
allKeysExistInCache is declared false and never reassigned, because the
assignment inside the loop is a shadowing declaration; the post-loop
success branch tests the outer flag. -/
def getSecretsCache (secretsCache : List (String × List (String × String)))
    (path : String) (keys : List String) : Option (List (String × String)) :=
  let allKeysExistInCache := false
  match assocFind secretsCache path with
  | none => none
  | some cachedSecrets =>
    match getSecretsCacheLoop cachedSecrets keys [] with
    | none => none
    | some secrets => if allKeysExistInCache then some secrets else none

/-- updateSecretsCache from the SecretProvider: create the path entry when
absent, then write every fetched key into it. -/
def updateSecretsCache (cache : List (String × List (String × String)))
    (path : String) (secrets : List (String × String)) :
    List (String × List (String × String)) :=
  let cache1 :=
    match assocFind cache path with
    | none => assocPut cache path secrets
    | some _ => cache
  secrets.foldl
    (fun c kv =>
      match assocFind c path with
      | none => assocPut c path [(kv.1, kv.2)]
      | some inner => assocPut c path (assocPut inner kv.1 kv.2))
    cache1

/-- Abstract model of the external secret client (go-mod-secrets): one
GetSecrets operation. -/
structure SecretClientModel where
  getSecrets : String → List String → Except String (List (String × String))

/-- SecretProvider.GetSecrets: insecure configuration secrets when
security is disabled; otherwise the cache is consulted, then the secret
client, and a successful fetch updates the cache. Returns the result
together with the possibly updated cache. -/
def SecretProvider.GetSecrets (env : String) (cfg : List InsecureSecretsInfo)
    (secretClient : Option SecretClientModel)
    (cache : List (String × List (String × String)))
    (path : String) (keys : List String) :
    Except String (List (String × String)) × List (String × List (String × String)) :=
  if isSecurityEnabled env = false then (getInsecureSecrets cfg path keys, cache)
  else
    match getSecretsCache cache path keys with
    | some cachedSecrets => (.ok cachedSecrets, cache)
    | none =>
      match secretClient with
      | none => (.error "cannot get secrets, SecretProvider is not properly initialized", cache)
      | some client =>
        match client.getSecrets path keys with
        | .error e => (.error e, cache)
        | .ok secrets => (.ok secrets, updateSecretsCache cache path secrets)

/-! ## Pipeline replay and the store-and-forward retry engine

The implementations of the pipeline replay, processRetryItems and
retryStoredData live in internal/runtime, whose source is not available
here; only their unit tests and callers are. The definitions below are
modelled from the specification (sections 4.1 and 4.2) and are
disambiguated at the retry-ceiling boundary by the unit tests
TestProcessRetryItems and TestDoStoreAndForwardRetry, which remove an
item whose incremented count equals MaxRetryCount. -/

/-- The opaque tagged value flowing between pipeline functions: byte
sequences or arbitrary user payloads the runtime never inspects. -/
inductive PipeValue where
  | bytes (b : List Nat)
  | otherVal (tag : Nat)
deriving DecidableEq, Repr

/-- The two-tuple (continue, result) returned by a pipeline function,
split by the five rows of the runtime action table: continue with a
value, continue past an error, stop on nil (success), stop on an error
(failure), stop on a non-nil value (success). -/
inductive FuncRes where
  | contVal (v : PipeValue)
  | contErr
  | stopNil
  | stopErr
  | stopVal (v : PipeValue)
deriving DecidableEq, Repr

/-- Modelled from the spec: a pipeline function of the runtime, whose Go
source (appcontext.AppFunction dispatch in internal/runtime) is not under
src. Besides the (continue, result) pair it yields the retry payload the
function deposited via SetRetryData during the call, none when it set no
new (non-empty) retry payload; the runtime clears the retry buffer before
every call, so only the called function's own deposit is visible. -/
def AppFuncM : Type := PipeValue → FuncRes × Option (List Nat)

/-- Outcome of replaying a stored item through the remaining pipeline:
full success, or failure carrying the new retry payload and the offset of
the failing function when one was set. -/
inductive ReplayOutcome where
  | success
  | failure (retry : Option (List Nat × Nat))
deriving DecidableEq, Repr

/-- Modelled from the spec: the runtime walk of the function chain from
offset i (section 4.1 action table), whose Go source is not under src.
Returns the outcome together with the list of offsets of the functions
that were invoked. -/
def runPipeline (fs : List AppFuncM) (i : Nat) (v : PipeValue) : ReplayOutcome × List Nat :=
  match fs with
  | [] => (.success, [])
  | f :: rest =>
    match f v with
    | (.contVal w, _) =>
      let r := runPipeline rest (i + 1) w
      (r.1, i :: r.2)
    | (.contErr, _) =>
      let r := runPipeline rest (i + 1) v
      (r.1, i :: r.2)
    | (.stopNil, _) => (.success, [i])
    | (.stopVal _, _) => (.success, [i])
    | (.stopErr, retry) =>
      match retry with
      | none => (.failure none, [i])
      | some p => (.failure (some (p, i)), [i])

/-- Modelled from the spec: re-entry of the runtime at the item's saved
pipelinePosition with the item's saved payload (section 4.2), whose Go
source is not under src. -/
def replayItem (fs : List AppFuncM) (item : StoredObject) : ReplayOutcome × List Nat :=
  runPipeline (fs.drop item.PipelinePosition) item.PipelinePosition (PipeValue.bytes item.Payload)

/-- Decision of the retry engine for one stored item. -/
inductive ItemDecision where
  | removeItem (o : StoredObject)
  | updateItem (o : StoredObject)
deriving DecidableEq, Repr

/-- Modelled from the spec: the per-item policy of processRetryItems
(section 4.2), whose Go source is not under src. A version mismatch
removes the item without invoking any function; a successful replay
removes it; a failed replay increments retryCount (and on a new retry
payload also rewrites payload and pipelinePosition), then removes the
item when the incremented count reaches maxRetryCount and updates it
otherwise — the ceiling comparison follows seed test 3 and the unit tests,
which remove an item going from retryCount 9 to 10 under MaxRetryCount 10.
The second component is the list of pipeline offsets invoked for the item. -/
def processOneItem (fs : List AppFuncM) (currentHash : String) (maxRetryCount : Int)
    (item : StoredObject) : ItemDecision × List Nat :=
  if item.Version ≠ currentHash then (.removeItem item, [])
  else
    match replayItem fs item with
    | (.success, tr) => (.removeItem item, tr)
    | (.failure retry, tr) =>
      let item1 :=
        match retry with
        | none => { item with RetryCount := item.RetryCount + 1 }
        | some (p, j) =>
          { item with RetryCount := item.RetryCount + 1, Payload := p, PipelinePosition := j }
      if maxRetryCount ≤ item1.RetryCount then (.removeItem item1, tr)
      else (.updateItem item1, tr)

/-- Modelled from the spec: processRetryItems (section 4.2), whose Go
source is not under src. Applies the per-item policy to every listed item
and accumulates the toRemove and toUpdate sets in input order. -/
def processRetryItems (fs : List AppFuncM) (currentHash : String) (maxRetryCount : Int)
    (items : List StoredObject) : List StoredObject × List StoredObject :=
  match items with
  | [] => ([], [])
  | item :: rest =>
    let r := processRetryItems fs currentHash maxRetryCount rest
    match (processOneItem fs currentHash maxRetryCount item).1 with
    | .removeItem o => (o :: r.1, r.2)
    | .updateItem o => (r.1, o :: r.2)

/-! ### The mock store of the unit tests (from the runtime test file) -/

/-- The durable store of the tests: a map from object ID to object. -/
def StoreMap := List (String × StoredObject)

/-- validateContract from the runtime test file: ID (when required),
AppServiceKey, Payload and Version must be non-empty. -/
def validateContract ( IDRequired : Bool) (o : StoredObject) : Except String Unit :=
  if IDRequired ∧ o.ID = "" then .error "invalid contract, ID cannot be empty"
  else if o.AppServiceKey = "" then .error "invalid contract, app service key cannot be empty"
  else if o.Payload = [] then .error "invalid contract, payload cannot be empty"
  else if o.Version = "" then .error "invalid contract, version cannot be empty"
  else .ok ()

/-- mockStoreObject from the runtime test file: validate, assign the
fresh UUID when the ID is empty, then write the object at its ID. -/
def mockStoreObject (store : List (String × StoredObject)) (o : StoredObject)
    (fresh : String) : Except String (List (String × StoredObject)) :=
  match validateContract false o with
  | .error e => .error e
  | .ok _ =>
    let o1 := if o.ID = "" then { o with ID := fresh } else o
    .ok (assocPut store o1.ID o1)

/-- mockUpdateObject from the runtime test file: validate with required
ID, then overwrite the object at its ID. -/
def mockUpdateObject (store : List (String × StoredObject)) (o : StoredObject) :
    Except String (List (String × StoredObject)) :=
  match validateContract true o with
  | .error e => .error e
  | .ok _ => .ok (assocPut store o.ID o)

/-- mockRemoveObject from the runtime test file: validate with required
ID, then delete the entry at the object's ID. -/
def mockRemoveObject (store : List (String × StoredObject)) (o : StoredObject) :
    Except String (List (String × StoredObject)) :=
  match validateContract true o with
  | .error e => .error e
  | .ok _ => .ok (assocDel store o.ID)

/-- mockRetrieveObjects from the runtime test file: every stored object
whose AppServiceKey matches the service key. -/
def mockRetrieveObjects (store : List (String × StoredObject)) (serviceKey : String) :
    List StoredObject :=
  (store.map Prod.snd).filter (fun o => o.AppServiceKey = serviceKey)

/-- Modelled from the spec: one retry round of retryStoredData
(section 4.2), whose Go source is not under src, running against the mock
store of the unit tests: list the items of this service, split them with
processRetryItems, then remove and update, logging and ignoring per-item
store errors (an erroring store operation leaves the store unchanged). -/
def retryStoredData (fs : List AppFuncM) (currentHash : String) (maxRetryCount : Int)
    (serviceKey : String) (store : List (String × StoredObject)) :
    List (String × StoredObject) :=
  let items := mockRetrieveObjects store serviceKey
  let r := processRetryItems fs currentHash maxRetryCount items
  let store1 := r.1.foldl
    (fun st o => match mockRemoveObject st o with | .ok st2 => st2 | .error _ => st) store
  r.2.foldl
    (fun st o => match mockUpdateObject st o with | .ok st2 => st2 | .error _ => st) store1

/-! ## Writable-configuration change listener (appsdk/sdk.go) -/

/-- The StoreAndForward block of the writable configuration. -/
structure StoreAndForwardInfo where
  MaxRetryCount : Int
  RetryInterval : String
  Enabled : Bool
deriving DecidableEq, Repr

/-- The writable configuration fields the change listener inspects. -/
structure WritableInfo where
  LogLevel : String
  StoreAndForward : StoreAndForwardInfo
deriving DecidableEq, Repr

/-- The configuration update performed by one iteration of
listenForConfigChanges in appsdk/sdk.go: the incoming writable block is
stored, then the switch handles the first changed setting; a negative
MaxRetryCount is replaced by 1. The remaining switch cases (retry
interval, enabled flag, pipeline reload) restart workers without editing
the stored writable block further. -/
def listenForConfigChangesUpdate (previous actual : WritableInfo) : WritableInfo :=
  if previous.LogLevel ≠ actual.LogLevel then actual
  else if previous.StoreAndForward.MaxRetryCount ≠ actual.StoreAndForward.MaxRetryCount then
    if actual.StoreAndForward.MaxRetryCount < 0 then
      { actual with StoreAndForward := { actual.StoreAndForward with MaxRetryCount := 1 } }
    else actual
  else actual

/-! ## Processing context: MarkAsPushed (appcontext) -/

/-- Abstract model of the external Core Data event client: the two
mark-as-pushed operations, each taking the correlation ID attached to the
outgoing request and the event identifier. -/
structure EventClientModel where
  MarkPushed : String → String → Except String Unit
  MarkPushedByChecksum : String → String → Except String Unit

/-- Context.MarkAsPushed from the appcontext package: error when the
event client is missing; otherwise mark by EventID when present, else by
EventChecksum when present, else error. -/
def MarkAsPushed (client : Option EventClientModel)
    (EventID EventChecksum CorrelationID : String) : Except String Unit :=
  match client with
  | none => .error "unable to Mark As Pushed: CoreData client is missing from Clients configuration"
  | some c =>
    if EventID ≠ "" then c.MarkPushed CorrelationID EventID
    else if EventChecksum ≠ "" then c.MarkPushedByChecksum CorrelationID EventChecksum
    else .error "No EventID or EventChecksum Provided"

/-! ## Concrete pipeline fixtures, mirroring the transforms of the tests -/

/-- The passthrough transform of the tests: continue with the input. -/
def passthruFn : AppFuncM := fun v => (.contVal v, none)

/-- A sink that fails without depositing a retry payload. -/
def failNoRetryFn : AppFuncM := fun _ => (.stopErr, none)

/-- The success sink of the tests: returns (false, nil). -/
def successFn : AppFuncM := fun _ => (.stopNil, none)

/-- A sink that fails and deposits the retry payload p, like the HTTP
post transform on a network error. -/
def failRetryFn (p : List Nat) : AppFuncM := fun _ => (.stopErr, some p)

/-- A sink that succeeds exactly on payload [1] and otherwise fails
depositing [1] as the new retry payload. -/
def chooseFn : AppFuncM :=
  fun v => if v = .bytes [1] then (.stopNil, none) else (.stopErr, some [1])

/-- The stored item of the retry-ceiling scenario: retryCount 9 at
pipeline position 2 under the current hash. -/
def itemAtCeiling : StoredObject :=
  { NewStoredObject "svc" [1, 2] 2 "hash1" with ID := "id-1", RetryCount := 9 }

/-! ## Further concrete fixtures for the claims -/

/-- The bad-version scenario item: written under a fingerprint that is
not the current one. -/
def badVersionItem : StoredObject :=
  { NewStoredObject "svc" [1, 2] 2 "some bad version" with ID := "id-2" }

/-- Seed scenario 5: single item at retryCount 1, pipelinePosition 1,
replayed through [passthrough, success]. -/
def seedItemSuccess : StoredObject :=
  { NewStoredObject "svc" [3, 4] 1 "hash1" with ID := "id-1", RetryCount := 1 }

/-- The payload of the ongoing-failure seed scenario. -/
def seedPayload : List Nat := [9, 9]

/-- Seed scenario 6: item at retryCount 1 with correlation and event
markers set, replayed through a pipeline whose sink fails and deposits
the payload again. -/
def seedItemOngoing : StoredObject :=
  { NewStoredObject "svc" seedPayload 1 "hash1" with
      ID := "id-1", RetryCount := 1, CorrelationID := "CorrelationID",
      EventID := "CorrelationID", EventChecksum := "CorrelationID" }

/-- Pipeline of the two-item round: position 0 succeeds at once,
position 1 fails without a retry payload. -/
def fsTwoItems : List AppFuncM := [successFn, failNoRetryFn]

/-- The succeeding item of the two-item round. -/
def itemA : StoredObject := { NewStoredObject "svc" [5] 0 "hash1" with ID := "id-a" }

/-- The failing item (budget left) of the two-item round. -/
def itemB : StoredObject := { NewStoredObject "svc" [6] 1 "hash1" with ID := "id-b" }

/-- Pipeline of the shared-output round: passthrough, then a sink that
succeeds exactly on payload [1] and otherwise deposits [1] for retry. -/
def fsShared : List AppFuncM := [passthruFn, chooseFn]

/-- Failing input of the shared-output round: replay from position 0
with payload [0] fails at offset 1 depositing payload [1]. -/
def itemI2 : StoredObject := { NewStoredObject "svc" [0] 0 "hash1" with ID := "id-x", RetryCount := 4 }

/-- Succeeding input of the shared-output round, equal to the updated
form of the failing one: same ID, payload [1], position 1, count 5. -/
def itemI1 : StoredObject := { itemI2 with Payload := [1], RetryCount := 5, PipelinePosition := 1 }

/-! ## Lemmas about the stored-object contract and the secrets cache -/

theorem validateContractRest_isErr (o : StoredObject) :
    exceptIsError (validateContractRest o) = true ↔
      uuidParse o.ID = none ∨ o.AppServiceKey = "" ∨ o.Payload = [] ∨ o.Version = "" := by
  unfold validateContractRest
  cases h : uuidParse o.ID with
  | none => simp [exceptIsError]
  | some bs =>
    simp only [h]
    split_ifs with h1 h2 h3 <;> simp_all [exceptIsError]

theorem getSecretsCache_eq_none (cache : List (String × List (String × String)))
    (path : String) (keys : List String) : getSecretsCache cache path keys = none := by
  unfold getSecretsCache
  cases assocFind cache path with
  | none => rfl
  | some cachedSecrets =>
    dsimp only
    cases getSecretsCacheLoop cachedSecrets keys [] with
    | none => rfl
    | some secrets => rfl

/-! ## Structural lemmas about the retry engine -/

theorem processRetryItems_nil (fs : List AppFuncM) (hsh : String) (m : Int) :
    processRetryItems fs hsh m [] = ([], []) := rfl

theorem processRetryItems_cons (fs : List AppFuncM) (hsh : String) (m : Int)
    (j : StoredObject) (rest : List StoredObject) :
    processRetryItems fs hsh m (j :: rest) =
      (match (processOneItem fs hsh m j).1 with
       | .removeItem o =>
         (o :: (processRetryItems fs hsh m rest).1, (processRetryItems fs hsh m rest).2)
       | .updateItem o =>
         ((processRetryItems fs hsh m rest).1, o :: (processRetryItems fs hsh m rest).2)) := rfl

theorem processOneItem_bad_version (fs : List AppFuncM) (hsh : String) (m : Int)
    (item : StoredObject) (hv : item.Version ≠ hsh) :
    processOneItem fs hsh m item = (.removeItem item, []) := by
  unfold processOneItem
  simp [hv]

theorem processOneItem_success (fs : List AppFuncM) (hsh : String) (m : Int)
    (item : StoredObject) (hv : item.Version = hsh)
    (hs : (replayItem fs item).1 = .success) :
    (processOneItem fs hsh m item).1 = .removeItem item := by
  unfold processOneItem
  rcases hr : replayItem fs item with ⟨out, tr⟩
  rw [hr] at hs
  simp only at hs
  subst hs
  simp [hv]

theorem processOneItem_ID (fs : List AppFuncM) (hsh : String) (m : Int)
    (item o : StoredObject)
    (h : (processOneItem fs hsh m item).1 = .removeItem o ∨
         (processOneItem fs hsh m item).1 = .updateItem o) :
    o.ID = item.ID := by
  unfold processOneItem at h
  by_cases hv : item.Version ≠ hsh
  · rw [if_pos hv] at h
    rcases h with h | h
    · cases h; rfl
    · cases h
  · rw [if_neg hv] at h
    rcases hr : replayItem fs item with ⟨out, tr⟩
    rw [hr] at h
    cases out with
    | success =>
      rcases h with h | h
      · cases h; rfl
      · cases h
    | failure retry =>
      cases retry with
      | none =>
        simp only at h
        split at h <;> rcases h with h | h <;> cases h <;> rfl
      | some pj =>
        rcases pj with ⟨p, j⟩
        simp only at h
        split at h <;> rcases h with h | h <;> cases h <;> rfl

theorem processOneItem_update_frame (fs : List AppFuncM) (hsh : String) (m : Int)
    (item o : StoredObject) (h : (processOneItem fs hsh m item).1 = .updateItem o) :
    o.AppServiceKey = item.AppServiceKey ∧ o.CorrelationID = item.CorrelationID ∧
    o.EventID = item.EventID ∧ o.EventChecksum = item.EventChecksum ∧
    o.ID = item.ID ∧ o.Version = item.Version ∧ o.RetryCount = item.RetryCount + 1 := by
  unfold processOneItem at h
  by_cases hv : item.Version ≠ hsh
  · rw [if_pos hv] at h
    cases h
  · rw [if_neg hv] at h
    rcases hr : replayItem fs item with ⟨out, tr⟩
    rw [hr] at h
    cases out with
    | success => cases h
    | failure retry =>
      cases retry with
      | none =>
        simp only at h
        split at h
        · cases h
        · cases h; exact ⟨rfl, rfl, rfl, rfl, rfl, rfl, rfl⟩
      | some pj =>
        rcases pj with ⟨p, j⟩
        simp only at h
        split at h
        · cases h
        · cases h; exact ⟨rfl, rfl, rfl, rfl, rfl, rfl, rfl⟩

theorem mem_removes_of_decision (fs : List AppFuncM) (hsh : String) (m : Int)
    (items : List StoredObject) (item o : StoredObject) (hmem : item ∈ items)
    (hdec : (processOneItem fs hsh m item).1 = .removeItem o) :
    o ∈ (processRetryItems fs hsh m items).1 := by
  induction items with
  | nil => cases hmem
  | cons j rest ih =>
    rw [processRetryItems_cons]
    rcases List.mem_cons.mp hmem with rfl | hmem2
    · rw [hdec]
      exact List.mem_cons_self _ _
    · cases hd : (processOneItem fs hsh m j).1 with
      | removeItem o1 => exact List.mem_cons_of_mem _ (ih hmem2)
      | updateItem o1 => exact ih hmem2

theorem exists_of_mem_removes (fs : List AppFuncM) (hsh : String) (m : Int)
    (items : List StoredObject) (o : StoredObject)
    (h : o ∈ (processRetryItems fs hsh m items).1) :
    ∃ item, item ∈ items ∧ (processOneItem fs hsh m item).1 = .removeItem o := by
  induction items with
  | nil => cases h
  | cons j rest ih =>
    rw [processRetryItems_cons] at h
    cases hd : (processOneItem fs hsh m j).1 with
    | removeItem o1 =>
      rw [hd] at h
      rcases List.mem_cons.mp h with rfl | h2
      · exact ⟨j, List.mem_cons_self _ _, hd⟩
      · rcases ih h2 with ⟨it, hit, hd2⟩
        exact ⟨it, List.mem_cons_of_mem _ hit, hd2⟩
    | updateItem o1 =>
      rw [hd] at h
      rcases ih h with ⟨it, hit, hd2⟩
      exact ⟨it, List.mem_cons_of_mem _ hit, hd2⟩

theorem exists_of_mem_updates (fs : List AppFuncM) (hsh : String) (m : Int)
    (items : List StoredObject) (o : StoredObject)
    (h : o ∈ (processRetryItems fs hsh m items).2) :
    ∃ item, item ∈ items ∧ (processOneItem fs hsh m item).1 = .updateItem o := by
  induction items with
  | nil => cases h
  | cons j rest ih =>
    rw [processRetryItems_cons] at h
    cases hd : (processOneItem fs hsh m j).1 with
    | removeItem o1 =>
      rw [hd] at h
      rcases ih h with ⟨it, hit, hd2⟩
      exact ⟨it, List.mem_cons_of_mem _ hit, hd2⟩
    | updateItem o1 =>
      rw [hd] at h
      rcases List.mem_cons.mp h with rfl | h2
      · exact ⟨j, List.mem_cons_self _ _, hd⟩
      · rcases ih h2 with ⟨it, hit, hd2⟩
        exact ⟨it, List.mem_cons_of_mem _ hit, hd2⟩

/-! ## Claim theorems -/

/-- Claim C1, counterexample. Under the modelled engine an item whose
replay fails without a new retry payload at retryCount 9 and
maxRetryCount 10 has incremented count 10, which is not strictly greater
than 10, yet the item is removed and toUpdate stays empty — against the
claim, which would put it in toUpdate. -/
theorem C1_counterexample :
    ¬ ((9 : Int) + 1 > 10) ∧
    (replayItem [passthruFn, passthruFn, failNoRetryFn] itemAtCeiling).1 =
      .failure none ∧
    (processRetryItems [passthruFn, passthruFn, failNoRetryFn] "hash1" 10 [itemAtCeiling]).2 = [] ∧
    (processRetryItems [passthruFn, passthruFn, failNoRetryFn] "hash1" 10 [itemAtCeiling]).1 =
      [{ itemAtCeiling with RetryCount := 10 }] := by decide

/-- Claim C1 (amended): a stored item whose replay fails without setting
a new retry payload has its retryCount incremented; when the incremented
count is greater than or equal to maxRetryCount the item is removed,
otherwise the incremented item is updated. In particular an item starting
at retryCount 9 under maxRetryCount 10 is removed and zero items remain in
the store for the service. -/
theorem C1_retry_failure_policy (fs : List AppFuncM) (hsh : String) (m : Int)
    (item : StoredObject) (hv : item.Version = hsh)
    (hf : (replayItem fs item).1 = .failure none) :
    ((m ≤ item.RetryCount + 1 →
        (processOneItem fs hsh m item).1 =
          .removeItem { item with RetryCount := item.RetryCount + 1 }) ∧
     (item.RetryCount + 1 < m →
        (processOneItem fs hsh m item).1 =
          .updateItem { item with RetryCount := item.RetryCount + 1 })) ∧
    retryStoredData [passthruFn, passthruFn, failNoRetryFn] "hash1" 10 "svc"
      [("id-1", itemAtCeiling)] = [] := by
  have hv' : ¬ (item.Version ≠ hsh) := fun hn => hn hv
  rcases hr : replayItem fs item with ⟨out, tr⟩
  rw [hr] at hf
  simp only at hf
  subst hf
  constructor
  · constructor
    · intro hm
      unfold processOneItem
      rw [if_neg hv', hr]
      simp [hm]
    · intro hm
      unfold processOneItem
      rw [if_neg hv', hr]
      simp [not_le.mpr hm]
  · decide

/-- Claim C1, witness: at retryCount 4 under maxRetryCount 10 the failed
item is updated with count 5. -/
theorem C1_retry_failure_policy_witness :
    (processOneItem [passthruFn, passthruFn, failNoRetryFn] "hash1" 10
       { itemAtCeiling with RetryCount := 4 }).1 =
      .updateItem { itemAtCeiling with RetryCount := 5 } :=
  (C1_retry_failure_policy [passthruFn, passthruFn, failNoRetryFn] "hash1" 10
    { itemAtCeiling with RetryCount := 4 } rfl (by decide)).1.2 (by decide)

/-- Claim C2: an item whose version differs from the current fingerprint
is decided as removeItem with an empty invocation trace — no pipeline
function runs for it — and it lands in the toRemove set of its round. -/
theorem C2_bad_version_removed_without_invocation (fs : List AppFuncM) (hsh : String)
    (m : Int) (items : List StoredObject) (item : StoredObject)
    (hmem : item ∈ items) (hv : item.Version ≠ hsh) :
    processOneItem fs hsh m item = (.removeItem item, []) ∧
    item ∈ (processRetryItems fs hsh m items).1 := by
  have h1 := processOneItem_bad_version fs hsh m item hv
  refine ⟨h1, mem_removes_of_decision fs hsh m items item item hmem ?_⟩
  rw [h1]

/-- Claim C2, witness: the bad-version item of seed scenario 4 is removed
with no function invoked even though the pipeline ends in a success sink. -/
theorem C2_bad_version_removed_without_invocation_witness :
    processOneItem [passthruFn, passthruFn, successFn] "hash1" 10 badVersionItem =
      (.removeItem badVersionItem, []) ∧
    badVersionItem ∈
      (processRetryItems [passthruFn, passthruFn, successFn] "hash1" 10 [badVersionItem]).1 :=
  C2_bad_version_removed_without_invocation [passthruFn, passthruFn, successFn] "hash1" 10
    [badVersionItem] badVersionItem (List.mem_cons_self _ _) (by decide)

/-- Claim C3, counterexample: in a round over a two-item store for one
service key, the first item replays to full success, yet after the round
the store still holds an item for that key (the second item, updated), so
the claimed store emptiness fails. -/
theorem C3_counterexample :
    (replayItem fsTwoItems itemA).1 = .success ∧
    mockRetrieveObjects
      (retryStoredData fsTwoItems "hash1" 10 "svc" [("id-a", itemA), ("id-b", itemB)])
      "svc" ≠ [] := by decide

/-- Claim C3 (amended): a stored item whose replay from its saved
position completes successfully is decided as removeItem and added to
toRemove; in the single-item seed scenario ([passthrough, success sink],
retryCount 1, position 1) the store contains no item for the service key
after the round. -/
theorem C3_success_removed (fs : List AppFuncM) (hsh : String) (m : Int)
    (item : StoredObject) (hv : item.Version = hsh)
    (hs : (replayItem fs item).1 = .success) :
    (processOneItem fs hsh m item).1 = .removeItem item ∧
    mockRetrieveObjects
      (retryStoredData [passthruFn, successFn] "hash1" 10 "svc" [("id-1", seedItemSuccess)])
      "svc" = [] :=
  ⟨processOneItem_success fs hsh m item hv hs, by decide⟩

/-- Claim C3, witness: the seed item itself is decided as removeItem. -/
theorem C3_success_removed_witness :
    (processOneItem [passthruFn, successFn] "hash1" 10 seedItemSuccess).1 =
      .removeItem seedItemSuccess :=
  (C3_success_removed [passthruFn, successFn] "hash1" 10 seedItemSuccess rfl (by decide)).1

/-- Claim C4, counterexample: with two distinct input items sharing one
ID, the update of the failing one coincides with the succeeding one, and
that stored object appears in both toRemove and toUpdate of the round. -/
theorem C4_counterexample :
    itemI1 ≠ itemI2 ∧
    itemI1 ∈ (processRetryItems fsShared "hash1" 10 [itemI1, itemI2]).1 ∧
    itemI1 ∈ (processRetryItems fsShared "hash1" 10 [itemI1, itemI2]).2 := by decide

/-- Claim C4 (amended): whenever the input items of a round carry
pairwise distinct ids — as items listed from the ID-keyed store always
do — no stored object appears in both toRemove and toUpdate. -/
theorem C4_disjoint_of_nodup_ids (fs : List AppFuncM) (hsh : String) (m : Int)
    (items : List StoredObject) (hnd : (items.map StoredObject.ID).Nodup) :
    ∀ o, o ∈ (processRetryItems fs hsh m items).1 →
      o ∉ (processRetryItems fs hsh m items).2 := by
  intro o hr hu
  obtain ⟨i1, hi1, hd1⟩ := exists_of_mem_removes fs hsh m items o hr
  obtain ⟨i2, hi2, hd2⟩ := exists_of_mem_updates fs hsh m items o hu
  have hid1 := processOneItem_ID fs hsh m i1 o (Or.inl hd1)
  have hid2 := processOneItem_ID fs hsh m i2 o (Or.inr hd2)
  have heq : i1 = i2 :=
    List.inj_on_of_nodup_map hnd hi1 hi2 (hid1.symm.trans hid2)
  subst heq
  rw [hd1] at hd2
  cases hd2

/-- Claim C4, witness: on the singleton round the removed object is not
among the updates. -/
theorem C4_disjoint_of_nodup_ids_witness :
    itemI1 ∉ (processRetryItems fsShared "hash1" 10 [itemI1]).2 :=
  C4_disjoint_of_nodup_ids fsShared "hash1" 10 [itemI1] (by decide) itemI1 (by decide)

/-- Claim C5: an item decided as updateItem keeps its appServiceKey,
correlationId, eventId and eventChecksum (and id and version) unchanged,
with only the retry count incremented (and, on partial progress, payload
and position rewritten); in the ongoing-failure seed scenario the stored
item survives the round with count 2 and all markers intact. -/
theorem C5_update_preserves_metadata (fs : List AppFuncM) (hsh : String) (m : Int)
    (item o : StoredObject) (h : (processOneItem fs hsh m item).1 = .updateItem o) :
    o.AppServiceKey = item.AppServiceKey ∧ o.CorrelationID = item.CorrelationID ∧
    o.EventID = item.EventID ∧ o.EventChecksum = item.EventChecksum ∧
    o.RetryCount = item.RetryCount + 1 ∧
    mockRetrieveObjects
      (retryStoredData [passthruFn, failRetryFn seedPayload] "hash1" 10 "svc"
        [("id-1", seedItemOngoing)]) "svc" =
      [{ seedItemOngoing with RetryCount := 2 }] := by
  obtain ⟨h1, h2, h3, h4, _, _, h7⟩ := processOneItem_update_frame fs hsh m item o h
  exact ⟨h1, h2, h3, h4, h7, by decide⟩

/-- Claim C5, witness: the ongoing-failure seed item is updated to count
2 with its markers preserved. -/
theorem C5_update_preserves_metadata_witness :
    ({ seedItemOngoing with RetryCount := 2 } : StoredObject).CorrelationID =
      seedItemOngoing.CorrelationID ∧
    ({ seedItemOngoing with RetryCount := 2 } : StoredObject).EventID =
      seedItemOngoing.EventID :=
  ⟨(C5_update_preserves_metadata [passthruFn, failRetryFn seedPayload] "hash1" 10
      seedItemOngoing { seedItemOngoing with RetryCount := 2 } (by decide)).2.1,
   (C5_update_preserves_metadata [passthruFn, failRetryFn seedPayload] "hash1" 10
      seedItemOngoing { seedItemOngoing with RetryCount := 2 } (by decide)).2.2.1⟩

/-- Claim C6: ValidateContract errors exactly when the app service key,
payload or version is empty or the effective id fails uuid parsing; a
required empty id is an error, and an absent id with IDRequired false is
replaced by the freshly generated UUID so only the remaining fields are
checked. -/
theorem C6_validate_contract ( IDRequired : Bool) (o : StoredObject) (fresh : String)
    (hfresh : uuidParse fresh ≠ none) :
    exceptIsError (StoredObject.ValidateContract IDRequired o fresh) = true ↔
      ((IDRequired = true ∧ o.ID = "") ∨
       uuidParse (if IDRequired = false ∧ o.ID = "" then fresh else o.ID) = none ∨
       o.AppServiceKey = "" ∨ o.Payload = [] ∨ o.Version = "") := by
  unfold StoredObject.ValidateContract
  cases IDRequired with
  | true =>
    by_cases hid : o.ID = ""
    · simp [hid, exceptIsError]
    · simp [hid, validateContractRest_isErr]
  | false =>
    by_cases hid : o.ID = ""
    · simp [hid, validateContractRest_isErr, hfresh]
    · simp [hid, validateContractRest_isErr]

/-- Claim C6, witness: with a parsable fresh UUID, an object with an
empty id, non-empty key, payload and version passes validation when the
id is not required. -/
theorem C6_validate_contract_witness :
    uuidParse "7a0f2a6c-c312-4b1c-9a4f-01aa6ab6e5e3" ≠ none ∧
    (exceptIsError (StoredObject.ValidateContract false
        (NewStoredObject "svc" [1] 0 "v1") "7a0f2a6c-c312-4b1c-9a4f-01aa6ab6e5e3") = true ↔
      ((false = true ∧ (NewStoredObject "svc" [1] 0 "v1").ID = "") ∨
       uuidParse (if false = false ∧ (NewStoredObject "svc" [1] 0 "v1").ID = ""
         then "7a0f2a6c-c312-4b1c-9a4f-01aa6ab6e5e3"
         else (NewStoredObject "svc" [1] 0 "v1").ID) = none ∨
       (NewStoredObject "svc" [1] 0 "v1").AppServiceKey = "" ∨
       (NewStoredObject "svc" [1] 0 "v1").Payload = [] ∨
       (NewStoredObject "svc" [1] 0 "v1").Version = "")) :=
  ⟨by decide,
   C6_validate_contract false (NewStoredObject "svc" [1] 0 "v1")
     "7a0f2a6c-c312-4b1c-9a4f-01aa6ab6e5e3" (by decide)⟩

theorem getSecrets_secure_client (env : String) (cfg : List InsecureSecretsInfo)
    (c : SecretClientModel) (cache : List (String × List (String × String)))
    (path : String) (keys : List String) (henv : isSecurityEnabled env = true) :
    (SecretProvider.GetSecrets env cfg (some c) cache path keys).1 =
      c.getSecrets path keys := by
  unfold SecretProvider.GetSecrets
  rw [henv, getSecretsCache_eq_none]
  cases hc : c.getSecrets path keys <;> simp [hc]

/-- Claim C7: getSecretsCache returns none on every cache, path and key
list — the shadowed inner flag leaves the outer one false, so the
post-loop success branch is dead — and consequently GetSecrets in secure
mode always consults the secret client and returns its answer. -/
theorem C7_cache_always_misses :
    (∀ cache path keys, getSecretsCache cache path keys = none) ∧
    (∀ (env : String) (cfg : List InsecureSecretsInfo) (c : SecretClientModel)
       (cache : List (String × List (String × String))) (path : String)
       (keys : List String), isSecurityEnabled env = true →
       (SecretProvider.GetSecrets env cfg (some c) cache path keys).1 =
         c.getSecrets path keys) :=
  ⟨fun cache path keys => getSecretsCache_eq_none cache path keys,
   fun env cfg c cache path keys henv =>
     getSecrets_secure_client env cfg c cache path keys henv⟩

/-- Claim C7, witness: concrete secure-mode lookup goes to the client. -/
theorem C7_cache_always_misses_witness :
    isSecurityEnabled "" = true ∧
    (SecretProvider.GetSecrets "" []
        (some ⟨fun _ _ => .ok [("k", "v")]⟩) [("p", [("k", "v")])] "p" ["k"]).1 =
      Except.ok [("k", "v")] :=
  ⟨by decide,
   C7_cache_always_misses.2 "" [] ⟨fun _ _ => .ok [("k", "v")]⟩
     [("p", [("k", "v")])] "p" ["k"] (by decide)⟩

/-- Claim C8: the insecure in-configuration secrets are used exactly when
the environment variable reads the literal "false"; any other value
(the empty string modelling an absent variable included) drives the
secure path, whose result ignores the insecure configuration and comes
from the secret client. -/
theorem C8_security_env_dispatch (env : String) (cfg cfg2 : List InsecureSecretsInfo)
    (client : Option SecretClientModel) (c : SecretClientModel)
    (cache : List (String × List (String × String))) (path : String) (keys : List String) :
    (isSecurityEnabled env = false ↔ env = "false") ∧
    (env = "false" →
      SecretProvider.GetSecrets env cfg client cache path keys =
        (getInsecureSecrets cfg path keys, cache)) ∧
    (env ≠ "false" →
      SecretProvider.GetSecrets env cfg client cache path keys =
        SecretProvider.GetSecrets env cfg2 client cache path keys) ∧
    (env ≠ "false" →
      (SecretProvider.GetSecrets env cfg (some c) cache path keys).1 =
        c.getSecrets path keys) := by
  refine ⟨by simp [isSecurityEnabled], ?_, ?_, ?_⟩
  · intro h
    have hsec : isSecurityEnabled env = false := by simp [isSecurityEnabled, h]
    unfold SecretProvider.GetSecrets
    rw [hsec]
    simp
  · intro h
    have hsec : isSecurityEnabled env = true := by simp [isSecurityEnabled, h]
    unfold SecretProvider.GetSecrets
    rw [hsec]
    simp
  · intro h
    exact getSecrets_secure_client env cfg c cache path keys (by simp [isSecurityEnabled, h])

/-- Claim C8, witness: the literal "false" selects the insecure secrets
and a non-"false" value selects the client. -/
theorem C8_security_env_dispatch_witness :
    SecretProvider.GetSecrets "false" [⟨"p", [("k", "v")]⟩] none [] "p" [] =
      (getInsecureSecrets [⟨"p", [("k", "v")]⟩] "p" [], []) ∧
    (SecretProvider.GetSecrets "x" [⟨"p", [("k", "v")]⟩]
        (some ⟨fun _ _ => .error "down"⟩) [] "p" ["k"]).1 = Except.error "down" :=
  ⟨(C8_security_env_dispatch "false" [⟨"p", [("k", "v")]⟩] []
      none ⟨fun _ _ => .error "down"⟩ [] "p" []).2.1 rfl,
   (C8_security_env_dispatch "x" [⟨"p", [("k", "v")]⟩] []
      (some ⟨fun _ _ => .error "down"⟩) ⟨fun _ _ => .error "down"⟩ [] "p" ["k"]).2.2.2
     (by decide)⟩

/-- Claim C9: when a writable change arrives whose only difference is a
StoreAndForward.MaxRetryCount below 0, the stored configuration after the
listener iteration holds MaxRetryCount 1. -/
theorem C9_max_retry_clamp (previous actual : WritableInfo)
    (hlog : previous.LogLevel = actual.LogLevel)
    (hchanged : previous.StoreAndForward.MaxRetryCount ≠
      actual.StoreAndForward.MaxRetryCount)
    (hneg : actual.StoreAndForward.MaxRetryCount < 0) :
    (listenForConfigChangesUpdate previous actual).StoreAndForward.MaxRetryCount = 1 := by
  unfold listenForConfigChangesUpdate
  rw [if_neg (by simp [hlog]), if_pos hchanged, if_pos hneg]

/-- Claim C9, witness: a change from 10 to -3 stores 1. -/
theorem C9_max_retry_clamp_witness :
    (listenForConfigChangesUpdate ⟨"INFO", ⟨10, "5m", true⟩⟩
      ⟨"INFO", ⟨-3, "5m", true⟩⟩).StoreAndForward.MaxRetryCount = 1 :=
  C9_max_retry_clamp ⟨"INFO", ⟨10, "5m", true⟩⟩ ⟨"INFO", ⟨-3, "5m", true⟩⟩
    rfl (by decide) (by decide)

/-- Claim C10: MarkAsPushed errors without any client call when the event
client is missing and when both EventID and EventChecksum are empty; a
non-empty EventID is marked by id whatever the checksum holds, and only an
empty EventID with a non-empty checksum is marked by checksum. -/
theorem C10_mark_as_pushed (c : EventClientModel) (eid ecs corr : String) :
    (MarkAsPushed none eid ecs corr =
      .error "unable to Mark As Pushed: CoreData client is missing from Clients configuration") ∧
    (eid = "" → ecs = "" →
      MarkAsPushed (some c) eid ecs corr = .error "No EventID or EventChecksum Provided") ∧
    (eid ≠ "" → MarkAsPushed (some c) eid ecs corr = c.MarkPushed corr eid) ∧
    (eid = "" → ecs ≠ "" →
      MarkAsPushed (some c) eid ecs corr = c.MarkPushedByChecksum corr ecs) := by
  refine ⟨rfl, ?_, ?_, ?_⟩
  · intro h1 h2
    unfold MarkAsPushed
    simp [h1, h2]
  · intro h1
    unfold MarkAsPushed
    simp [h1]
  · intro h1 h2
    unfold MarkAsPushed
    simp [h1, h2]

/-- Claim C10, witness: with a concrete client, a non-empty EventID wins
over the checksum and an all-empty context errors. -/
theorem C10_mark_as_pushed_witness :
    MarkAsPushed (some ⟨fun _ _ => .ok (), fun _ _ => .error "checksum path"⟩)
      "evt-1" "sum-1" "corr-1" = Except.ok () ∧
    MarkAsPushed (some ⟨fun _ _ => .ok (), fun _ _ => .error "checksum path"⟩)
      "" "" "corr-1" = .error "No EventID or EventChecksum Provided" :=
  ⟨(C10_mark_as_pushed ⟨fun _ _ => .ok (), fun _ _ => .error "checksum path"⟩
      "evt-1" "sum-1" "corr-1").2.2.1 (by decide),
   (C10_mark_as_pushed ⟨fun _ _ => .ok (), fun _ _ => .error "checksum path"⟩
      "" "" "corr-1").2.1 rfl rfl⟩
